import Mathlib

/-!
Shallow embedding of the client-side task synchronization logic of
`src/App.js` (a single-screen to-do list client).

The component state (`useState` hooks) is collected in `AppState`.
Each network-touching handler (`fetchTasks`, `addTask`, `removeTask`,
`toggleComplete`, `saveEdit`) is embedded as a pure function of the
current state and the outcome of its `fetch` call, returning the new
state together with the request it issued (`none` when the guard
returned before any request was made).

`fetch` semantics as used by the code: the promise rejects only on a
network error; `response.json()` throws when the body is not JSON; the
HTTP status is never inspected by this code.  `FetchOutcome` mirrors
exactly that: `netErr` (the fetch rejected), or `resp status body`
where `body = none` means the body failed to parse as JSON and
`body = some v` is the parsed value.  Every handler wraps its call in
`try/catch`, so a thrown error reaches the `catch` block, which only
logs and performs no state update.
-/

namespace TodoMobile

/-- A task as the client represents it: `{id, title, completed}`. -/
structure Task where
  id : Nat
  title : String
  completed : Bool
deriving DecidableEq, Repr

/-- The component state: the `useState` hooks of `App`
(`tasks`, `task`, `editId`, `editedTask`, `filter`, `darkMode`). -/
structure AppState where
  tasks : List Task
  task : String
  editId : Option Nat
  editedTask : String
  filter : String
  darkMode : Bool
deriving DecidableEq, Repr

/-- Body of a PUT request: `completed = none` models the field being
omitted from the JSON object (as `saveEdit` does). -/
structure UpdateBody where
  title : String
  completed : Option Bool
deriving DecidableEq, Repr

/-- The request a handler issued against the API. -/
inductive Request where
  | get : Request
  | post (title : String) (completed : Bool) : Request
  | put (id : Nat) (body : UpdateBody) : Request
  | delete (id : Nat) : Request
deriving DecidableEq, Repr

/-- Outcome of one `fetch` call, as observable by the code:
`netErr` — the fetch promise rejected (network error);
`resp status body` — a response arrived with the given HTTP status,
`body = none` meaning `response.json()` threw (non-JSON body) and
`body = some v` the parsed JSON value. -/
inductive FetchOutcome (α : Type) where
  | netErr : FetchOutcome α
  | resp (status : Nat) (body : Option α) : FetchOutcome α
deriving DecidableEq, Repr

/-- JavaScript `String.prototype.trim()`: the string with leading and
trailing whitespace removed.  (Defined on the character list by
structural recursion so that concrete instances evaluate.) -/
def jsTrim (s : String) : String :=
  ⟨((s.data.dropWhile Char.isWhitespace).reverse.dropWhile Char.isWhitespace).reverse⟩

/-- `fetchTasks` (App.js 23–31): GET the collection, `setTasks(data)`
on a parsed body; any thrown error is caught and only logged. -/
def fetchTasks (s : AppState) (o : FetchOutcome (List Task)) : AppState :=
  match o with
  | .netErr => s
  | .resp _ none => s
  | .resp _ (some data) => { s with tasks := data }

/-- `addTask` (App.js 33–47): guarded by `!task.trim()`; POSTs
`{title: task, completed: false}` (the untrimmed text); on a parsed
response appends it and clears the pending text; a thrown error is
caught, leaving the state untouched. -/
def addTask (s : AppState) (o : FetchOutcome Task) : AppState × Option Request :=
  if jsTrim s.task = "" then (s, none)
  else
    let req := Request.post s.task false
    match o with
    | .netErr => (s, some req)
    | .resp _ none => (s, some req)
    | .resp _ (some newTask) =>
        ({ s with tasks := s.tasks ++ [newTask], task := "" }, some req)

/-- `removeTask` (App.js 49–56): DELETEs the item endpoint; the
response body is never read, so once any response resolves (whatever
its status) the task is filtered out locally; only a rejected fetch
reaches the `catch` block and leaves the state untouched. -/
def removeTask (s : AppState) (id : Nat) (o : FetchOutcome Task) :
    AppState × Option Request :=
  let req := Request.delete id
  match o with
  | .netErr => (s, some req)
  | .resp _ _ =>
      ({ s with tasks := s.tasks.filter fun t => t.id != id }, some req)

/-- `toggleComplete` (App.js 58–75): looks the task up locally and
returns without a request if absent; otherwise PUTs
`{title: taskToUpdate.title, completed: !completed}` and, on a parsed
response, replaces the task with the matching id in place. -/
def toggleComplete (s : AppState) (id : Nat) (completed : Bool)
    (o : FetchOutcome Task) : AppState × Option Request :=
  match s.tasks.find? fun t => t.id == id with
  | none => (s, none)
  | some taskToUpdate =>
    let req := Request.put id ⟨taskToUpdate.title, some (!completed)⟩
    match o with
    | .netErr => (s, some req)
    | .resp _ none => (s, some req)
    | .resp _ (some updatedTask) =>
        ({ s with tasks := s.tasks.map fun t =>
            if t.id == id then updatedTask else t }, some req)

/-- `saveEdit` (App.js 77–92): guarded by `!editedTask.trim()`; PUTs
`{title: editedTask}` (no `completed` field, untrimmed text); on a
parsed response replaces the task with the matching id in place,
clears `editId` and clears the edit text. -/
def saveEdit (s : AppState) (id : Nat) (o : FetchOutcome Task) :
    AppState × Option Request :=
  if jsTrim s.editedTask = "" then (s, none)
  else
    let req := Request.put id ⟨s.editedTask, none⟩
    match o with
    | .netErr => (s, some req)
    | .resp _ none => (s, some req)
    | .resp _ (some updatedTask) =>
        ({ s with
            tasks := s.tasks.map (fun t => if t.id == id then updatedTask else t),
            editId := none, editedTask := "" }, some req)

/-- The CANCEL button handler (App.js 158): `setEditId(null)` only —
no network call, and `editedTask` is left as it is. -/
def cancelEdit (s : AppState) : AppState × Option Request :=
  ({ s with editId := none }, none)

/-- `filteredTasks` (App.js 94–98): the displayed projection of the
list under the active filter string. -/
def filteredTasks (tasks : List Task) (filter : String) : List Task :=
  tasks.filter fun t =>
    if filter = "completed" then t.completed
    else if filter = "pending" then !t.completed
    else true

end TodoMobile

namespace TodoMobile

/-- Replacing-by-id maps a list to itself when no element has the id. -/
lemma map_replace_absent (l : List Task) (id : Nat) (u : Task)
    (h : ∀ t ∈ l, t.id ≠ id) :
    l.map (fun t => if t.id == id then u else t) = l := by
  induction l with
  | nil => rfl
  | cons a tl ih =>
    have ha : a.id ≠ id := h a (by simp)
    simp only [List.map_cons, ih (fun t ht => h t (by simp [ht]))]
    simp [ha]

/-- C2: the filter projection is a pure order-preserving subsequence:
with filter `completed` it contains a task iff `completed = true`, with
`pending` iff `completed = false`, with `all` it is the whole list, and
for every filter value it is a sublist (original order preserved). -/
theorem filteredTasks_spec (tasks : List Task) :
    (∀ t, t ∈ filteredTasks tasks "completed" ↔ t ∈ tasks ∧ t.completed = true) ∧
    (∀ t, t ∈ filteredTasks tasks "pending" ↔ t ∈ tasks ∧ t.completed = false) ∧
    filteredTasks tasks "all" = tasks ∧
    (∀ f, (filteredTasks tasks f).Sublist tasks) := by
  refine ⟨fun t => ?_, fun t => ?_, ?_, fun f => List.filter_sublist tasks⟩ <;>
    simp [filteredTasks, List.mem_filter, and_comm]

/-- C1 (amended): whenever a create/update/delete call throws — a network
error for any of them, or a non-JSON response body for the three
operations that parse one — the entire state (task list, pending text,
edit-target id, edit text) is identical to its pre-call value.  (A
non-2xx response with a JSON body does not throw and is NOT covered:
the code never inspects the status — see `addTask_non2xx_mutates`.) -/
theorem failedFetch_state_unchanged (s : AppState) (id : Nat) (c : Bool) (st : Nat) :
    (addTask s FetchOutcome.netErr).1 = s ∧ (addTask s (.resp st none)).1 = s ∧
    (toggleComplete s id c FetchOutcome.netErr).1 = s ∧
    (toggleComplete s id c (.resp st none)).1 = s ∧
    (saveEdit s id FetchOutcome.netErr).1 = s ∧
    (saveEdit s id (.resp st none)).1 = s ∧
    (removeTask s id FetchOutcome.netErr).1 = s := by
  refine ⟨?_, ?_, ?_, ?_, ?_, ?_, ?_⟩ <;>
    simp only [addTask, toggleComplete, saveEdit, removeTask] <;>
    first
      | rfl
      | (split <;> rfl)

/-- C1 (counterexample): a create that "fails" with a non-2xx status
whose body is JSON does mutate the state — the parsed body is appended
and the pending text is cleared — so "failure covers non-2xx status ⇒
state unchanged" is false of the code. -/
theorem addTask_non2xx_mutates :
    (addTask ⟨[], "x", none, "", "all", false⟩
        (.resp 404 (some ⟨7, "detail", false⟩))).1 ≠
      (⟨[], "x", none, "", "all", false⟩ : AppState) := by decide

/-- C4: Add with whitespace-only pending text issues no request and
changes nothing; with non-blank pending text, a successful create
appends exactly the server's returned task at the end of the list and
resets the pending text to `""`. -/
theorem addTask_spec (s : AppState) (st : Nat) (u : Task) :
    (jsTrim s.task = "" → ∀ o, addTask s o = (s, none)) ∧
    (jsTrim s.task ≠ "" →
      addTask s (.resp st (some u)) =
        ({ s with tasks := s.tasks ++ [u], task := "" },
          some (Request.post s.task false))) := by
  constructor
  · intro h o; simp [addTask, h]
  · intro h; simp [addTask, h]

/-- C4 witness: blank text `"  "` is a no-op; `"Buy milk"` with response
`{id: 7, title: "Buy milk", completed: false}` appends it and clears. -/
theorem addTask_spec_witness :
    addTask ⟨[], "  ", none, "", "all", false⟩ FetchOutcome.netErr =
      (⟨[], "  ", none, "", "all", false⟩, none) ∧
    addTask ⟨[], "Buy milk", none, "", "all", false⟩
        (.resp 200 (some ⟨7, "Buy milk", false⟩)) =
      (⟨[⟨7, "Buy milk", false⟩], "", none, "", "all", false⟩,
        some (Request.post "Buy milk" false)) :=
  ⟨(addTask_spec ⟨[], "  ", none, "", "all", false⟩ 200 ⟨7, "Buy milk", false⟩).1
      (by decide) FetchOutcome.netErr,
   (addTask_spec ⟨[], "Buy milk", none, "", "all", false⟩ 200 ⟨7, "Buy milk", false⟩).2
      (by decide)⟩

/-- C3: ToggleComplete on an absent id issues no request and changes
nothing; on a present task it always issues a PUT whose body is the
task's current title with the negated completed flag, and a successful
response replaces exactly the task with that id, preserving length and
every position. -/
theorem toggleComplete_spec (s : AppState) (id : Nat) :
    (s.tasks.find? (fun t => t.id == id) = none →
      ∀ c o, toggleComplete s id c o = (s, none)) ∧
    (∀ tk, s.tasks.find? (fun t => t.id == id) = some tk →
      (∀ o, (toggleComplete s id tk.completed o).2 =
          some (Request.put id ⟨tk.title, some (!tk.completed)⟩)) ∧
      (∀ st u,
        (toggleComplete s id tk.completed (.resp st (some u))).1.tasks.length
            = s.tasks.length ∧
        (∀ i : Nat, (toggleComplete s id tk.completed (.resp st (some u))).1.tasks[i]?
            = (s.tasks[i]?).map fun t => if t.id = id then u else t))) := by
  constructor
  · intro h c o; simp [toggleComplete, h]
  · intro tk h
    constructor
    · intro o; rcases o with _ | ⟨st, _ | u⟩ <;> simp [toggleComplete, h]
    · intro st u
      have hred : (toggleComplete s id tk.completed (.resp st (some u))).1.tasks
          = s.tasks.map (fun t => if t.id == id then u else t) := by
        simp [toggleComplete, h]
      rw [hred]
      refine ⟨List.length_map _ _, fun i => ?_⟩
      rw [List.getElem?_map]
      cases s.tasks[i]? <;> simp

/-- C3 witness: on `[{id: 1, title: "A", completed: false}]`,
ToggleComplete(1) issues `PUT {title: "A", completed: true}` and the
response `{id: 1, title: "A", completed: true}` lands at position 0. -/
theorem toggleComplete_spec_witness :
    (toggleComplete ⟨[⟨1, "A", false⟩], "", none, "", "all", false⟩ 1 false
        (.resp 200 (some ⟨1, "A", true⟩))).2 =
      some (Request.put 1 ⟨"A", some true⟩) ∧
    (toggleComplete ⟨[⟨1, "A", false⟩], "", none, "", "all", false⟩ 1 false
        (.resp 200 (some ⟨1, "A", true⟩))).1.tasks[0]? = some ⟨1, "A", true⟩ :=
  ⟨((toggleComplete_spec ⟨[⟨1, "A", false⟩], "", none, "", "all", false⟩ 1).2
      ⟨1, "A", false⟩ (by decide)).1 (.resp 200 (some ⟨1, "A", true⟩)),
   (((toggleComplete_spec ⟨[⟨1, "A", false⟩], "", none, "", "all", false⟩ 1).2
      ⟨1, "A", false⟩ (by decide)).2 200 ⟨1, "A", true⟩).2 0⟩

/-- C5: SaveEdit with blank edit text issues no request; otherwise the
PUT body is `{title: <edit text>}` with the completed field omitted,
and a successful response replaces the task with the matching id in
place and clears both the edit-target id and the edit text. -/
theorem saveEdit_spec (s : AppState) (id : Nat) (_hedit : s.editId = some id) :
    (jsTrim s.editedTask = "" → ∀ o, saveEdit s id o = (s, none)) ∧
    (jsTrim s.editedTask ≠ "" →
      (∀ o, (saveEdit s id o).2 = some (Request.put id ⟨s.editedTask, none⟩)) ∧
      (∀ st u, saveEdit s id (.resp st (some u)) =
        ({ s with
            tasks := s.tasks.map (fun t => if t.id == id then u else t),
            editId := none, editedTask := "" },
          some (Request.put id ⟨s.editedTask, none⟩)))) := by
  constructor
  · intro h o; simp [saveEdit, h]
  · intro h
    constructor
    · intro o; rcases o with _ | ⟨st, _ | u⟩ <;> simp [saveEdit, h]
    · intro st u; simp [saveEdit, h]

/-- C5 witness: editing task 1 from `"A"` to `"A2"` issues
`PUT {title: "A2"}` (no completed field) and on success replaces the
task and clears the edit state. -/
theorem saveEdit_spec_witness :
    saveEdit ⟨[⟨1, "A", false⟩], "", some 1, "A2", "all", false⟩ 1
        (.resp 200 (some ⟨1, "A2", false⟩)) =
      (⟨[⟨1, "A2", false⟩], "", none, "", "all", false⟩,
        some (Request.put 1 ⟨"A2", none⟩)) :=
  ((saveEdit_spec ⟨[⟨1, "A", false⟩], "", some 1, "A2", "all", false⟩ 1 rfl).2
      (by decide)).2 200 ⟨1, "A2", false⟩

/-- C6: a resolved delete removes exactly the elements with the
matching id and no other, preserving the order of the rest (sublist);
on failure (rejected fetch) the whole state is unchanged and a task
with that id is still present. -/
theorem removeTask_spec (s : AppState) (id st : Nat) (b : Option Task) :
    (∀ t, t ∈ (removeTask s id (.resp st b)).1.tasks ↔ t ∈ s.tasks ∧ t.id ≠ id) ∧
    ((removeTask s id (.resp st b)).1.tasks.Sublist s.tasks) ∧
    ((removeTask s id FetchOutcome.netErr).1 = s) ∧
    (∀ t ∈ s.tasks, t.id = id →
      t ∈ (removeTask s id FetchOutcome.netErr).1.tasks) := by
  refine ⟨fun t => ?_, ?_, rfl, fun t ht _ => ?_⟩
  · simp [removeTask, List.mem_filter]
  · simp only [removeTask]; exact List.filter_sublist _
  · simpa [removeTask] using ht

/-- C6 witness: with list `[{id: 1, title: "A", completed: false}]`,
a failed delete keeps task 1; a resolved delete removes it. -/
theorem removeTask_spec_witness :
    ((⟨1, "A", false⟩ : Task) ∈
        (removeTask ⟨[⟨1, "A", false⟩], "", none, "", "all", false⟩ 1
          FetchOutcome.netErr).1.tasks) ∧
    ¬ ((⟨1, "A", false⟩ : Task) ∈
        (removeTask ⟨[⟨1, "A", false⟩], "", none, "", "all", false⟩ 1
          (.resp 200 none)).1.tasks) :=
  ⟨(removeTask_spec ⟨[⟨1, "A", false⟩], "", none, "", "all", false⟩ 1 200 none).2.2.2
      ⟨1, "A", false⟩ (by decide) rfl,
   fun hmem =>
    (((removeTask_spec ⟨[⟨1, "A", false⟩], "", none, "", "all", false⟩ 1 200
        none).1 ⟨1, "A", false⟩).mp hmem).2 rfl⟩

/-- C7 (counterexample): the CANCEL handler only does `setEditId(null)`
— the edit text is NOT cleared, so "CancelEdit clears both the
edit-target id and the edit text" is false of the code. -/
theorem cancelEdit_keeps_editText :
    (cancelEdit ⟨[], "", some 1, "A2", "all", false⟩).1.editedTask = "A2" ∧
    ("A2" : String) ≠ "" :=
  ⟨rfl, by decide⟩

/-- C7 (amended): CancelEdit clears the edit-target id, leaves the edit
text at its previous value, issues no network request, and leaves the
task list and pending text unchanged. -/
theorem cancelEdit_spec (s : AppState) :
    (cancelEdit s).1.editId = none ∧
    (cancelEdit s).1.editedTask = s.editedTask ∧
    (cancelEdit s).2 = none ∧
    (cancelEdit s).1.tasks = s.tasks ∧
    (cancelEdit s).1.task = s.task :=
  ⟨rfl, rfl, rfl, rfl, rfl⟩

/-- C8 (counterexample): a list fetch answered with a non-2xx status
and a JSON body replaces the list with the parsed body — the status is
never inspected — so "on any failure (including non-2xx status) the
list is unchanged" is false of the code. -/
theorem fetchTasks_non2xx_replaces :
    (fetchTasks ⟨[⟨1, "A", false⟩], "", none, "", "all", false⟩
        (.resp 500 (some []))).tasks ≠
      (⟨[⟨1, "A", false⟩], "", none, "", "all", false⟩ : AppState).tasks := by
  decide

/-- C8 (amended): fetchTasks stores the server's parsed task sequence
exactly as returned (no client-side sort); when the fetch throws — a
network error or a non-JSON body — the whole state is unchanged, so a
failed initial fetch leaves the list empty. -/
theorem fetchTasks_spec (s : AppState) (st : Nat) (data : List Task) :
    fetchTasks s FetchOutcome.netErr = s ∧
    fetchTasks s (.resp st none) = s ∧
    (fetchTasks s (.resp st (some data))).tasks = data ∧
    (s.tasks = [] → (fetchTasks s FetchOutcome.netErr).tasks = []) :=
  ⟨rfl, rfl, rfl, fun h => h⟩

/-- C8 witness: a failed initial fetch (empty prior list) leaves the
list empty. -/
theorem fetchTasks_spec_witness :
    (fetchTasks ⟨[], "", none, "", "all", false⟩ FetchOutcome.netErr).tasks = [] :=
  (fetchTasks_spec ⟨[], "", none, "", "all", false⟩ 200 []).2.2.2 rfl

/-- C9: once past the trim guard, the create body carries the pending
text exactly as entered (untrimmed) and the SaveEdit body carries the
edit text exactly as entered. -/
theorem untrimmed_request_bodies (s : AppState) (id : Nat) (o : FetchOutcome Task) :
    (jsTrim s.task ≠ "" → (addTask s o).2 = some (Request.post s.task false)) ∧
    (jsTrim s.editedTask ≠ "" →
      (saveEdit s id o).2 = some (Request.put id ⟨s.editedTask, none⟩)) := by
  constructor <;> intro h <;> rcases o with _ | ⟨st, _ | u⟩ <;>
    simp [addTask, saveEdit, h]

/-- C9 witness: pending text `" Buy milk "` is POSTed with its leading
and trailing spaces; edit text `" A2 "` is PUT with its spaces. -/
theorem untrimmed_request_bodies_witness :
    ((addTask ⟨[], " Buy milk ", none, "", "all", false⟩ FetchOutcome.netErr).2 =
      some (Request.post " Buy milk " false)) ∧
    ((saveEdit ⟨[], "", some 1, " A2 ", "all", false⟩ 1 FetchOutcome.netErr).2 =
      some (Request.put 1 ⟨" A2 ", none⟩)) :=
  ⟨(untrimmed_request_bodies ⟨[], " Buy milk ", none, "", "all", false⟩ 1
      FetchOutcome.netErr).1 (by decide),
   (untrimmed_request_bodies ⟨[], "", some 1, " A2 ", "all", false⟩ 1
      FetchOutcome.netErr).2 (by decide)⟩

/-- C10: SaveEdit performs no local existence check: for an id absent
from the list it still issues the PUT, and a successful response clears
the edit-target id and edit text while the list is unchanged (the
in-place replacement matches nothing). -/
theorem saveEdit_absent_id (s : AppState) (id st : Nat) (u : Task)
    (habs : ∀ t ∈ s.tasks, t.id ≠ id)
    (hne : jsTrim s.editedTask ≠ "") :
    (saveEdit s id (.resp st (some u))).2 =
      some (Request.put id ⟨s.editedTask, none⟩) ∧
    (saveEdit s id (.resp st (some u))).1.tasks = s.tasks ∧
    (saveEdit s id (.resp st (some u))).1.editId = none ∧
    (saveEdit s id (.resp st (some u))).1.editedTask = "" := by
  have hred : saveEdit s id (.resp st (some u)) =
      ({ s with
          tasks := s.tasks.map (fun t => if t.id == id then u else t),
          editId := none, editedTask := "" },
        some (Request.put id ⟨s.editedTask, none⟩)) := by
    simp [saveEdit, hne]
  rw [hred]
  exact ⟨rfl, map_replace_absent s.tasks id u habs, rfl, rfl⟩

/-- C10 witness: saving an edit for absent id 2 still resolves, leaves
the single task with id 1 in place, and clears the edit state. -/
theorem saveEdit_absent_id_witness :
    (saveEdit ⟨[⟨1, "A", false⟩], "", some 2, "B", "all", false⟩ 2
        (.resp 200 (some ⟨2, "B", true⟩))).1.tasks = [⟨1, "A", false⟩] :=
  (saveEdit_absent_id ⟨[⟨1, "A", false⟩], "", some 2, "B", "all", false⟩ 2 200
      ⟨2, "B", true⟩ (by decide) (by decide)).2.1

end TodoMobile
